import Mathlib

/-!
A shallow embedding of the ingestion-and-caching pipeline of the
Nexus-news repository (Node/Express backend `news-nexus-node-api`),
covering:

* the article normalizers and the `articleId` dedup key
  (`newsFetchScheduler.service.js`, `unifiedNews.service.js`);
* the Article Store (`News.model.js` over a MongoDB collection with a
  unique index on `articleId`) and its bulk-upsert write path
  (`saveArticlesToDB` / `News.bulkUpsert`, both of which issue
  `updateOne` ops `{filter: {articleId}, update: {$set: article},
  upsert: true}` through `News.bulkWrite`);
* the scheduler's slot execution (`executeScheduledFetch`) together with
  its stats and last-fetch bookkeeping;
* the Read Service (`UnifiedNewsService`) and the store query helpers.

Modelling conventions:

* JavaScript `undefined`/`null` field values are modelled with `Option`;
  a JS `x || y` default is modelled by `jsOr`/`jsOrStr` (falsy check:
  `undefined`, `null` and `""` fall through to the default).
* `new Date(s)` applied to a raw provider date string is modelled by
  carrying the outcome of that parse in the raw article:
  `some ms` for a string parsing to a timestamp of `ms` milliseconds,
  `none` for a missing or unparseable value (an Invalid Date).
* Timestamps are integers (milliseconds since the epoch).
* MongoDB `updateOne` with `upsert: true` updates the first document
  matching the filter, or inserts a new document when none matches;
  schema `default`s (such as `fetchedAt: Date.now` and
  `isDeleted: false`) are applied on insert only, and required-field
  validators do not run on `$set` update operations (Mongoose default).
* Mongoose does, however, *cast* each update payload against the schema
  before executing a `bulkWrite`: an Invalid Date on the `Date` path
  `publishedAt` raises a `CastError` that rejects the whole call before
  any op is written, while an `undefined` value on a `String` path such
  as `title` or `url` is merely stripped from the payload (no error).
  `News.bulkWriteWithCast` / `saveArticlesToDBWithCast` model the full
  call including this cast stage; `bulkWriteUpserts` /
  `saveArticlesToDB` model its op-execution stage, reached once every
  payload has cast.
-/

/-- JS `a || b` on two possibly-absent strings: `a` wins unless it is
falsy (`undefined`, `null` or `""`). -/
def jsOr (a b : Option String) : Option String :=
  match a with
  | some s => if s = "" then b else some s
  | none => b

/-- JS `a || d` producing a plain string default (`article.description || ""`
and similar fields in the normalizers). -/
def jsOrStr (a : Option String) (d : String) : String :=
  match a with
  | some s => if s = "" then d else s
  | none => d

/-- JS string interpolation of a possibly-absent value inside a template
literal: `undefined` prints as `"undefined"`. -/
def jsInterp (a : Option String) : String :=
  match a with
  | some s => s
  | none => "undefined"

/-- Raw NewsData.io article as consumed by `normalizeNewsDataArticle`.
`pubDate` carries the outcome of `new Date(article.pubDate)` (see file
header). -/
structure RawNewsDataArticle where
  article_id : Option String
  title : Option String
  description : Option String
  content : Option String
  link : Option String
  image_url : Option String
  pubDate : Option Int
  source_id : Option String
  source_name : Option String
  creator : Option (List String)
  category : Option (List String)
  country : Option (List String)
  language : Option String
  keywords : Option (List String)
  sentiment : Option String
  video_url : Option String
  ai_tag : Option String
  duplicate : Option Bool
  deriving Repr, DecidableEq

/-- Raw NewsAPI.org article as consumed by `normalizeNewsApiOrgArticle`.
`publishedAt` carries the outcome of `new Date(article.publishedAt)`. -/
structure RawNewsApiOrgArticle where
  url : Option String
  title : Option String
  description : Option String
  content : Option String
  urlToImage : Option String
  publishedAt : Option Int
  sourceId : Option String
  sourceName : Option String
  author : Option String
  deriving Repr, DecidableEq

/-- Canonical normalized article record, the payload of the `$set` in the
bulk-upsert ops. Keys the NewsAPI.org normalizer's object literal does not
contain (`sentiment`, `creator`, `video_url`, `ai_tag`, `duplicate`) are
modelled as their schema-default values, which coincide with key absence
on insert; no claim below concerns a later update of those five fields. -/
structure NormArticle where
  articleId : String
  title : Option String
  description : String
  content : String
  url : Option String
  urlToImage : Option String
  publishedAt : Option Int
  sourceId : Option String
  sourceName : String
  author : Option String
  category : List String
  country : List String
  language : String
  keywords : List String
  sourceApi : String
  sentiment : Option String
  creator : List String
  video_url : Option String
  ai_tag : Option String
  duplicate : Bool
  deriving Repr, DecidableEq

/-- `NewsFetchScheduler.normalizeNewsDataArticle` /
`UnifiedNewsService.normalizeNewsDataArticle` (identical code):
field-by-field mapping of a raw NewsData.io article; note that it emits a
record unconditionally (no required-field check anywhere in the body). -/
def normalizeNewsDataArticle (article : RawNewsDataArticle) : NormArticle :=
  { articleId := "newsdata_" ++ jsInterp (jsOr article.article_id article.link)
    title := article.title
    description := jsOrStr article.description ""
    content := jsOrStr article.content ""
    url := article.link
    urlToImage := article.image_url
    publishedAt := article.pubDate
    sourceId := article.source_id
    sourceName := jsOrStr (jsOr article.source_name article.source_id) "Unknown"
    author := (article.creator.map (String.intercalate ", ")).orElse (fun _ => none)
    category := article.category.getD []
    country := article.country.getD []
    language := jsOrStr article.language "en"
    keywords := article.keywords.getD []
    sourceApi := "newsdata.io"
    sentiment := article.sentiment
    creator := article.creator.getD []
    video_url := article.video_url
    ai_tag := article.ai_tag
    duplicate := article.duplicate.getD false }

/-- `NewsFetchScheduler.normalizeNewsApiOrgArticle` /
`UnifiedNewsService.normalizeNewsApiOrgArticle` (identical code): the
`category`/`country` arguments come from the request context (the slot's
configured filter), not from the article body. Also emits a record
unconditionally. -/
def normalizeNewsApiOrgArticle (article : RawNewsApiOrgArticle)
    (category : List String := []) (country : List String := []) : NormArticle :=
  { articleId := "newsapi_" ++ jsInterp article.url
    title := article.title
    description := jsOrStr article.description ""
    content := jsOrStr article.content ""
    url := article.url
    urlToImage := article.urlToImage
    publishedAt := article.publishedAt
    sourceId := article.sourceId
    sourceName := jsOrStr article.sourceName "Unknown"
    author := article.author
    category := category
    country := country
    language := "en"
    keywords := []
    sourceApi := "newsapi.org"
    sentiment := none
    creator := []
    video_url := none
    ai_tag := none
    duplicate := false }

/-- A document of the `news_articles` collection: the normalized payload
plus the store-managed fields (`fetchedAt` default `Date.now`,
`isDeleted` default `false`, `schemaVersion` default `1` — applied on
insert only). -/
structure StoredRecord where
  articleId : String
  title : Option String
  description : String
  content : String
  url : Option String
  urlToImage : Option String
  publishedAt : Option Int
  sourceId : Option String
  sourceName : String
  author : Option String
  category : List String
  country : List String
  language : String
  keywords : List String
  sourceApi : String
  sentiment : Option String
  creator : List String
  video_url : Option String
  ai_tag : Option String
  duplicate : Bool
  fetchedAt : Int
  isDeleted : Bool
  schemaVersion : Nat
  deriving Repr, DecidableEq

/-- The Article Store: the `news_articles` collection in document order. -/
abbrev Store := List StoredRecord

/-- The MongoDB unique index on `articleId`: no two documents share a key. -/
def UniqueKeys (store : Store) : Prop :=
  store.Pairwise (fun r s => r.articleId ≠ s.articleId)

instance : DecidablePred UniqueKeys := fun store =>
  List.instDecidablePairwise store

/-- Effect of `$set: article` on an existing document: every normalized
field is overwritten; `fetchedAt`, `isDeleted` and `schemaVersion` are not
in the payload and keep their stored values. -/
def setFields (a : NormArticle) (r : StoredRecord) : StoredRecord :=
  { r with
    articleId := a.articleId
    title := a.title
    description := a.description
    content := a.content
    url := a.url
    urlToImage := a.urlToImage
    publishedAt := a.publishedAt
    sourceId := a.sourceId
    sourceName := a.sourceName
    author := a.author
    category := a.category
    country := a.country
    language := a.language
    keywords := a.keywords
    sourceApi := a.sourceApi
    sentiment := a.sentiment
    creator := a.creator
    video_url := a.video_url
    ai_tag := a.ai_tag
    duplicate := a.duplicate }

/-- Document created by an upserting `updateOne` that matched nothing:
the `$set` payload plus the schema defaults (`fetchedAt := now`,
`isDeleted := false`, `schemaVersion := 1`). -/
def insertRecord (now : Int) (a : NormArticle) : StoredRecord :=
  { articleId := a.articleId
    title := a.title
    description := a.description
    content := a.content
    url := a.url
    urlToImage := a.urlToImage
    publishedAt := a.publishedAt
    sourceId := a.sourceId
    sourceName := a.sourceName
    author := a.author
    category := a.category
    country := a.country
    language := a.language
    keywords := a.keywords
    sourceApi := a.sourceApi
    sentiment := a.sentiment
    creator := a.creator
    video_url := a.video_url
    ai_tag := a.ai_tag
    duplicate := a.duplicate
    fetchedAt := now
    isDeleted := false
    schemaVersion := 1 }

/-- `updateOne` update path: rewrite the first document whose `articleId`
matches the filter. -/
def updateFirst (a : NormArticle) : Store → Store
  | [] => []
  | r :: rs =>
    if r.articleId = a.articleId then setFields a r :: rs
    else r :: updateFirst a rs

/-- One `updateOne {filter: {articleId}, update: {$set}, upsert: true}`
op: update the first match, or insert when there is none. The boolean
reports whether the op upserted (inserted) a new document. -/
def applyUpsertOne (now : Int) (store : Store) (a : NormArticle) :
    Store × Bool :=
  if store.any (fun r => r.articleId = a.articleId) then
    (updateFirst a store, false)
  else
    (store ++ [insertRecord now a], true)

/-- Outcome counts of a `bulkWrite`: `upsertedCount` and (an upper bound
for) `modifiedCount`; MongoDB's `modifiedCount` excludes updates that
changed nothing, a distinction no claim below depends on. -/
structure BulkCounts where
  upsertedCount : Nat
  modifiedCount : Nat
  deriving Repr, DecidableEq

/-- Op-execution stage of `News.bulkWrite(bulkOps, {ordered: false})`
over the upsert ops built by `saveArticlesToDB` / `News.bulkUpsert`:
apply the ops in batch order. This stage is reached only after Mongoose
has cast every op's `$set` payload (see `News.bulkWriteWithCast`). -/
def bulkWriteUpserts (now : Int) (articles : List NormArticle)
    (store : Store) : Store × BulkCounts :=
  match articles with
  | [] => (store, ⟨0, 0⟩)
  | a :: rest =>
    let (store1, inserted) := applyUpsertOne now store a
    let (store2, counts) := bulkWriteUpserts now rest store1
    if inserted then (store2, ⟨counts.upsertedCount + 1, counts.modifiedCount⟩)
    else (store2, ⟨counts.upsertedCount, counts.modifiedCount + 1⟩)

/-- Result object of `saveArticlesToDB` (scheduler variant):
`{saved: result.upsertedCount, updated: result.modifiedCount}`. -/
structure SaveResult where
  saved : Nat
  updated : Nat
  deriving Repr, DecidableEq

/-- `NewsFetchScheduler.saveArticlesToDB(articles)`, cast-clean
execution: empty input returns `{saved: 0, updated: 0}` without touching
the store; otherwise the articles are mapped to upsert ops and committed
through `News.bulkWrite`. `saveArticlesToDBWithCast` below is the same
function including the `CastError` path of the bulk write, and the two
agree whenever every payload casts. -/
def saveArticlesToDB (now : Int) (articles : List NormArticle)
    (store : Store) : Store × SaveResult :=
  if articles.isEmpty then (store, ⟨0, 0⟩)
  else
    let (store', counts) := bulkWriteUpserts now articles store
    (store', ⟨counts.upsertedCount, counts.modifiedCount⟩)

/-- Result object of `News.bulkUpsert`. -/
structure BulkUpsertResult where
  success : Nat
  upserted : Nat
  modified : Nat
  errors : Nat
  deriving Repr, DecidableEq

/-- `News.bulkUpsert(articles)` (News.model.js): same ops as
`saveArticlesToDB`, with a different result envelope. -/
def News.bulkUpsert (now : Int) (articles : List NormArticle)
    (store : Store) : Store × BulkUpsertResult :=
  if articles.isEmpty then (store, ⟨0, 0, 0, 0⟩)
  else
    let (store', counts) := bulkWriteUpserts now articles store
    (store',
      ⟨counts.upsertedCount + counts.modifiedCount,
       counts.upsertedCount, counts.modifiedCount, 0⟩)

/-- Mongoose casting of one op's `$set` payload against the News schema:
`title` and `url` are `String` paths, so an `undefined` value is simply
stripped from the payload (no error); `publishedAt` is a `Date` path,
and an Invalid Date — produced by `new Date(x)` on a missing or
unparseable raw date, modelled as `none` — raises a `CastError`. -/
def setPayloadCasts (a : NormArticle) : Bool :=
  a.publishedAt.isSome

/-- `News.bulkWrite(bulkOps, {ordered: false})` including the casting
stage Mongoose runs before executing: if any op's `$set` payload fails
to cast, the whole call rejects with a `CastError` and no op is written;
otherwise the ops are applied in batch order (`bulkWriteUpserts`). -/
def News.bulkWriteWithCast (now : Int) (articles : List NormArticle)
    (store : Store) : Except String (Store × BulkCounts) :=
  if articles.all setPayloadCasts then
    .ok (bulkWriteUpserts now articles store)
  else
    .error "CastError: Cast to date failed"

/-- `NewsFetchScheduler.saveArticlesToDB(articles)` with the store's
cast-error path made explicit: an empty input short-circuits; a
`CastError` rejecting `News.bulkWrite` is caught, logged and rethrown
(`throw error`), so the caller sees the rejection and the store is left
untouched — nothing in the batch, valid records included, is committed. -/
def saveArticlesToDBWithCast (now : Int) (articles : List NormArticle)
    (store : Store) : Except String (Store × SaveResult) :=
  if articles.isEmpty then .ok (store, ⟨0, 0⟩)
  else
    match News.bulkWriteWithCast now articles store with
    | .ok (store', counts) =>
      .ok (store', ⟨counts.upsertedCount, counts.modifiedCount⟩)
    | .error e => .error e

/-- Number of stored documents carrying a given `articleId`. -/
def countKey (store : Store) (k : String) : Nat :=
  (store.filter (fun r => r.articleId = k)).length

/-- A NewsData.io parameter set from `fetchSchedule.config.js`
(`newsDataConfig` entries). -/
structure NDConfig where
  category : Option String
  country : Option String
  language : Option String
  deriving Repr, DecidableEq

/-- A NewsAPI.org parameter set from `fetchSchedule.config.js`
(`newsApiConfig` entries). -/
structure NAConfig where
  country : Option String
  category : Option String
  pageSize : Option Nat
  deriving Repr, DecidableEq

/-- One named slot of `FETCH_SCHEDULE`: cron time, description, and the
two ordered per-provider parameter-set lists. -/
structure Schedule where
  time : String
  description : String
  newsDataConfig : List NDConfig
  newsApiConfig : List NAConfig
  deriving Repr, DecidableEq

/-- Body of a NewsData.io `/news` response (`{status, totalResults,
results}`). -/
structure NewsDataBody where
  status : String
  totalResults : Nat
  results : List RawNewsDataArticle
  deriving Repr, DecidableEq

/-- Value returned by `NewsApiService.getLatestNews` (newsApi.service.js):
`return { success: true, data: response.data }` — the provider body is
wrapped under the `data` key. -/
structure NewsDataServiceResult where
  success : Bool
  data : NewsDataBody
  deriving Repr, DecidableEq

/-- JS dynamic property access `result?.results` performed by
`fetchFromNewsData` on the object `{ success, data }` returned by
`NewsApiService.getLatestNews`: that object literal has no `results` key,
so the access evaluates to `undefined` (the results actually live at
`result.data.results`). -/
def NewsDataServiceResult.resultsKey (_ : NewsDataServiceResult) :
    Option (List RawNewsDataArticle) := none

/-- Body of a NewsAPI.org `/top-headlines` response (`{status,
totalResults, articles}`); `NewsApiOrgService.makeRequest` returns
`response.data`, i.e. this body, unwrapped. -/
structure NewsApiOrgBody where
  status : String
  totalResults : Nat
  articles : List RawNewsApiOrgArticle
  deriving Repr, DecidableEq

/-- Outcomes of the outbound HTTP calls and of the store's bulk write,
fixed per run: each parameter set maps to either a response body or a
thrown error message, and `bulkWriteOk = false` models a `News.bulkWrite`
that throws (store unreachable). -/
structure FetchEnv where
  newsDataHttp : NDConfig → Except String NewsDataBody
  newsApiOrgHttp : NAConfig → Except String NewsApiOrgBody
  bulkWriteOk : Bool

/-- `NewsApiService.getLatestNews(filters)` (newsApi.service.js): on a
successful request returns `{ success: true, data: response.data }`; on
an axios error, `throw this.handleError(error)` propagates a failure. -/
def NewsApiService.getLatestNews (env : FetchEnv) (filters : NDConfig) :
    Except String NewsDataServiceResult :=
  match env.newsDataHttp filters with
  | .ok body => .ok { success := true, data := body }
  | .error e => .error e

/-- `NewsApiOrgService.getTopHeadlines(filters)` (newsApiOrg.service.js):
`makeRequest` returns `response.data` directly; `handleError` rethrows on
any axios failure. -/
def NewsApiOrgService.getTopHeadlines (env : FetchEnv) (filters : NAConfig) :
    Except String NewsApiOrgBody :=
  env.newsApiOrgHttp filters

/-- `NewsFetchScheduler.fetchFromNewsData(config)`: calls
`newsApiService.getLatestNews`, then checks `if (result?.results)` and
maps `normalizeNewsDataArticle` over them; any thrown error is caught and
an empty list returned. Because the service wraps the body under `data`,
the `result?.results` access always yields `undefined` and the `if` falls
through to `return []`. -/
def fetchFromNewsData (env : FetchEnv) (config : NDConfig) :
    List NormArticle :=
  match NewsApiService.getLatestNews env config with
  | .error _ => []
  | .ok result =>
    match result.resultsKey with
    | some results => results.map normalizeNewsDataArticle
    | none => []

/-- `NewsFetchScheduler.fetchFromNewsApiOrg(config)`: calls
`newsApiOrgService.getTopHeadlines`, checks `if (result?.articles)`
(present on the body, and a `[]` value is still truthy in JS) and maps
`normalizeNewsApiOrgArticle` with the config's category/country as
context; any thrown error is caught and an empty list returned. -/
def fetchFromNewsApiOrg (env : FetchEnv) (config : NAConfig) :
    List NormArticle :=
  match NewsApiOrgService.getTopHeadlines env config with
  | .error _ => []
  | .ok result =>
    result.articles.map (fun article =>
      normalizeNewsApiOrgArticle article
        (match config.category with | some c => [c] | none => [])
        (match config.country with | some c => [c] | none => []))

/-- `FETCH_SCHEDULE` from fetchSchedule.config.js, transcribed. -/
def FETCH_SCHEDULE_EARLY_MORNING : Schedule :=
  { time := "0 6 * * *"
    description := "Early morning fetch - General & Breaking news"
    newsDataConfig :=
      [⟨some "top", some "in", some "en"⟩,
       ⟨some "breaking", some "in", some "en"⟩,
       ⟨some "top", some "us", some "en"⟩,
       ⟨some "breaking", some "us", some "en"⟩,
       ⟨some "world", none, some "en"⟩]
    newsApiConfig :=
      [⟨some "in", none, some 100⟩, ⟨some "us", none, some 100⟩] }

def FETCH_SCHEDULE_MORNING : Schedule :=
  { time := "0 9 * * *"
    description := "Morning fetch - Business & Technology news"
    newsDataConfig :=
      [⟨some "business", some "in", some "en"⟩,
       ⟨some "technology", some "in", some "en"⟩,
       ⟨some "business", some "us", some "en"⟩,
       ⟨some "technology", some "us", some "en"⟩]
    newsApiConfig :=
      [⟨some "in", some "business", some 100⟩,
       ⟨some "in", some "technology", some 100⟩,
       ⟨some "us", some "business", some 100⟩,
       ⟨some "us", some "technology", some 100⟩] }

def FETCH_SCHEDULE_AFTERNOON : Schedule :=
  { time := "0 13 * * *"
    description := "Afternoon fetch - Entertainment & Sports"
    newsDataConfig :=
      [⟨some "entertainment", some "in", some "en"⟩,
       ⟨some "entertainment", some "us", some "en"⟩,
       ⟨some "sports", some "us", some "en"⟩,
       ⟨some "sports", some "in", some "en"⟩]
    newsApiConfig :=
      [⟨some "in", some "entertainment", some 100⟩,
       ⟨some "in", some "sports", some 100⟩,
       ⟨some "us", some "entertainment", some 100⟩,
       ⟨some "us", some "sports", some 100⟩] }

def FETCH_SCHEDULE_EVENING : Schedule :=
  { time := "0 18 * * *"
    description := "Evening fetch - Health & Science news"
    newsDataConfig :=
      [⟨some "health", some "in", some "en"⟩,
       ⟨some "health", some "us", some "en"⟩,
       ⟨some "science", some "us", some "en"⟩,
       ⟨some "science", some "in", some "en"⟩,
       ⟨some "politics", some "in", some "en"⟩,
       ⟨some "politics", some "us", some "en"⟩]
    newsApiConfig :=
      [⟨some "in", some "health", some 100⟩,
       ⟨some "us", some "health", some 100⟩,
       ⟨some "in", some "science", some 100⟩,
       ⟨some "us", some "science", some 100⟩] }

def FETCH_SCHEDULE_NIGHT : Schedule :=
  { time := "0 22 * * *"
    description := "Night fetch - Latest updates & Politics"
    newsDataConfig :=
      [⟨some "top", none, some "en"⟩,
       ⟨some "politics", some "us", some "en"⟩,
       ⟨some "technology", some "in", some "en"⟩,
       ⟨some "politics", some "in", some "en"⟩,
       ⟨some "technology", some "us", some "en"⟩]
    newsApiConfig :=
      [⟨some "in", none, some 100⟩, ⟨some "us", none, some 100⟩] }

/-- `FETCH_SCHEDULE[scheduleName]` — string-keyed lookup; an unknown name
yields `undefined`. -/
def fetchScheduleLookup (scheduleName : String) : Option Schedule :=
  if scheduleName = "EARLY_MORNING" then some FETCH_SCHEDULE_EARLY_MORNING
  else if scheduleName = "MORNING" then some FETCH_SCHEDULE_MORNING
  else if scheduleName = "AFTERNOON" then some FETCH_SCHEDULE_AFTERNOON
  else if scheduleName = "EVENING" then some FETCH_SCHEDULE_EVENING
  else if scheduleName = "NIGHT" then some FETCH_SCHEDULE_NIGHT
  else none

/-- `this.lastFetchTimes` — one slot key per schedule, `null` initially. -/
structure LastFetchTimes where
  earlyMorning : Option Int
  morning : Option Int
  afternoon : Option Int
  evening : Option Int
  night : Option Int
  deriving Repr, DecidableEq

/-- `this.lastFetchTimes[scheduleName] = new Date()` (only reached for a
name that passed the `FETCH_SCHEDULE[scheduleName]` lookup). -/
def LastFetchTimes.set (t : LastFetchTimes) (scheduleName : String)
    (now : Int) : LastFetchTimes :=
  if scheduleName = "EARLY_MORNING" then { t with earlyMorning := some now }
  else if scheduleName = "MORNING" then { t with morning := some now }
  else if scheduleName = "AFTERNOON" then { t with afternoon := some now }
  else if scheduleName = "EVENING" then { t with evening := some now }
  else if scheduleName = "NIGHT" then { t with night := some now }
  else t

/-- `this.lastFetchTimes[scheduleName]` read access. -/
def LastFetchTimes.get (t : LastFetchTimes) (scheduleName : String) :
    Option Int :=
  if scheduleName = "EARLY_MORNING" then t.earlyMorning
  else if scheduleName = "MORNING" then t.morning
  else if scheduleName = "AFTERNOON" then t.afternoon
  else if scheduleName = "EVENING" then t.evening
  else if scheduleName = "NIGHT" then t.night
  else none

/-- `this.fetchStats`. -/
structure FetchStats where
  totalFetches : Nat
  successfulFetches : Nat
  failedFetches : Nat
  articlesSaved : Nat
  deriving Repr, DecidableEq

/-- The scheduler's mutable per-process state touched by
`executeScheduledFetch`. -/
structure SchedulerState where
  lastFetchTimes : LastFetchTimes
  fetchStats : FetchStats
  deriving Repr, DecidableEq

/-- `NewsFetchScheduler.executeScheduledFetch(scheduleName)`:

* unknown schedule name: log and `return` (store and state untouched);
* otherwise, sequentially fetch every NewsData.io config then every
  NewsAPI.org config (each fetch catches its own errors and contributes
  `[]` on failure), accumulate into `allArticles`;
* if the accumulation is non-empty, commit it via `saveArticlesToDB` and
  on success bump `totalFetches`, `successfulFetches`, `articlesSaved`
  (by the save's `saved` count) and set `lastFetchTimes[scheduleName]`;
  if the save throws, the `catch` bumps `totalFetches` and
  `failedFetches` only;
* if the accumulation is empty, bump `totalFetches` only. -/
def executeScheduledFetch (env : FetchEnv) (now : Int)
    (scheduleName : String) (store : Store) (st : SchedulerState) :
    Store × SchedulerState :=
  match fetchScheduleLookup scheduleName with
  | none => (store, st)
  | some schedule =>
    let fromNewsData :=
      (schedule.newsDataConfig.map (fetchFromNewsData env)).flatten
    let fromNewsApiOrg :=
      (schedule.newsApiConfig.map (fetchFromNewsApiOrg env)).flatten
    let allArticles := fromNewsData ++ fromNewsApiOrg
    if allArticles.length > 0 then
      if env.bulkWriteOk then
        let (store', saveResult) := saveArticlesToDB now allArticles store
        (store',
          { lastFetchTimes := st.lastFetchTimes.set scheduleName now
            fetchStats :=
              { totalFetches := st.fetchStats.totalFetches + 1
                successfulFetches := st.fetchStats.successfulFetches + 1
                failedFetches := st.fetchStats.failedFetches
                articlesSaved :=
                  st.fetchStats.articlesSaved + saveResult.saved } })
      else
        (store,
          { lastFetchTimes := st.lastFetchTimes
            fetchStats :=
              { totalFetches := st.fetchStats.totalFetches + 1
                successfulFetches := st.fetchStats.successfulFetches
                failedFetches := st.fetchStats.failedFetches + 1
                articlesSaved := st.fetchStats.articlesSaved } })
    else
      (store,
        { lastFetchTimes := st.lastFetchTimes
          fetchStats :=
            { st.fetchStats with
              totalFetches := st.fetchStats.totalFetches + 1 } })

/-- HTTP response sent by `SchedulerController.triggerManualFetch`. -/
inductive TriggerResponse where
  | errorResp (statusCode : Nat) (message : String)
  | successResp (statusCode : Nat) (schedule : String)
  deriving Repr, DecidableEq

/-- JS falsiness of `req.body.schedule` (`if (!schedule)`): absent or
empty string. -/
def jsFalsyStr : Option String → Bool
  | none => true
  | some s => s = ""

/-- `SchedulerController.triggerManualFetch(req, res)`
(scheduler.controller.js): a falsy `schedule` in the body is rejected
with a 400; otherwise `newsFetchScheduler.triggerManualFetch(schedule)`
(which just awaits `executeScheduledFetch(schedule)`) is dispatched
fire-and-forget — its rejection is only logged — and a 202 success
acknowledgment is sent unconditionally. The eventual store/state effect
of the dispatched execution is returned alongside the response. -/
def triggerManualFetchController (env : FetchEnv) (now : Int)
    (schedule : Option String) (store : Store) (st : SchedulerState) :
    TriggerResponse × Store × SchedulerState :=
  if jsFalsyStr schedule then
    (.errorResp 400
      "Schedule name is required (MORNING, AFTERNOON, EVENING, NIGHT, EARLY_MORNING)",
     store, st)
  else
    let name := schedule.getD ""
    let (store', st') := executeScheduledFetch env now name store st
    (.successResp 202 name, store', st')

/-- Sort key for `sort({publishedAt: -1})`: a missing/invalid date sorts
below every real timestamp (MongoDB sorts missing/null lowest). -/
def pubRank (r : StoredRecord) : WithBot Int :=
  match r.publishedAt with
  | some t => (t : WithBot Int)
  | none => ⊥

/-- Descending `publishedAt` order on stored records. -/
def pubDescRel (a b : StoredRecord) : Prop := pubRank b ≤ pubRank a

instance : DecidableRel pubDescRel := fun a b =>
  inferInstanceAs (Decidable (pubRank b ≤ pubRank a))

instance : IsTotal StoredRecord pubDescRel :=
  ⟨fun a b => (le_total (pubRank b) (pubRank a)).imp id id⟩

instance : IsTrans StoredRecord pubDescRel :=
  ⟨fun _ _ _ h1 h2 => le_trans h2 h1⟩

/-- `sort({publishedAt: -1})` over a result set. -/
def sortPubDesc (l : List StoredRecord) : List StoredRecord :=
  List.insertionSort pubDescRel l

/-- Sort key for `sort({publishedAt: -1, fetchedAt: -1})`
(`getTrendingNews`): lexicographic on the two keys. -/
def trendRank (r : StoredRecord) : Lex (WithBot Int × Int) :=
  toLex (pubRank r, r.fetchedAt)

/-- Descending `(publishedAt, fetchedAt)` order. -/
def trendDescRel (a b : StoredRecord) : Prop := trendRank b ≤ trendRank a

instance : DecidableRel trendDescRel := fun a b =>
  inferInstanceAs (Decidable (trendRank b ≤ trendRank a))

instance : IsTotal StoredRecord trendDescRel :=
  ⟨fun a b => (le_total (trendRank b) (trendRank a)).imp id id⟩

instance : IsTrans StoredRecord trendDescRel :=
  ⟨fun _ _ _ h1 h2 => le_trans h2 h1⟩

/-- Observable effects of a service operation: store queries/writes and
outbound calls to the two upstream clients. -/
inductive Eff where
  | storeFind
  | storeCount
  | storeAggregate
  | storeWrite
  | upstreamNewsData
  | upstreamNewsApiOrg
  deriving Repr, DecidableEq

/-- Filters accepted by the Read Service operations. -/
structure DbFilters where
  category : Option String
  country : Option String
  language : Option String
  deriving Repr, DecidableEq

/-- The query object built by `UnifiedNewsService.getNewsFromDB`: each
provided filter becomes an equality condition; matching a scalar against
a MongoDB array field means membership. There is no `isDeleted` (nor
`duplicate`) condition in this query. -/
def matchesDbQuery (f : DbFilters) (r : StoredRecord) : Bool :=
  (match f.category with | some c => r.category.contains c | none => true) &&
  (match f.country with | some c => r.country.contains c | none => true) &&
  (match f.language with | some l => r.language = l | none => true)

/-- Result envelope of `UnifiedNewsService.getNewsFromDB`. -/
structure DBNewsResult where
  success : Bool
  totalResults : Nat
  articles : List StoredRecord
  page : Nat
  totalPages : Nat
  deriving Repr, DecidableEq

/-- `UnifiedNewsService.getNewsFromDB(filters, limit = 50, page = 1)`:
`News.find(query).sort({publishedAt: -1}).limit(limit).skip(skip)`
followed by `News.countDocuments(query)`. MongoDB applies `skip` before
`limit` regardless of the chaining order. The first component is the
operation's effect trace. -/
def getNewsFromDB (store : Store) (filters : DbFilters)
    (limit : Nat := 50) (page : Nat := 1) : List Eff × DBNewsResult :=
  let skip := (page - 1) * limit
  let matching := store.filter (matchesDbQuery filters)
  let articles := ((sortPubDesc matching).drop skip).take limit
  let total := matching.length
  ([Eff.storeFind, Eff.storeCount],
   { success := true
     totalResults := total
     articles := articles
     page := page
     totalPages := (total + limit - 1) / limit })

/-- `UnifiedNewsService.getLatestNews(filters)`: always delegates to
`getNewsFromDB(filters)` — "Always return from database - scheduler
handles API fetching". -/
def getLatestNews (store : Store) (filters : DbFilters) :
    List Eff × DBNewsResult :=
  getNewsFromDB store filters

/-- `UnifiedNewsService.getNewsByCategory(category, filters)`:
`getLatestNews({...filters, category})`. -/
def getNewsByCategory (store : Store) (category : String)
    (filters : DbFilters) : List Eff × DBNewsResult :=
  getLatestNews store { filters with category := some category }

/-- Oracle for the `$text` full-text index: a score for records matched
by a search string, `none` for records not matched. -/
structure ReadEnv where
  textScore : String → StoredRecord → Option Nat

/-- Descending `(textScore, publishedAt)` order used by
`searchArticles`' `sort({score: {$meta: "textScore"}, publishedAt: -1})`. -/
def scoreRank (renv : ReadEnv) (q : String) (r : StoredRecord) :
    Lex (Nat × WithBot Int) :=
  toLex ((renv.textScore q r).getD 0, pubRank r)

/-- `News.searchArticles(searchQuery, options)` (News.model.js): finds
`{$text: {$search}, isDeleted: false, duplicate: false}`, sorts by text
score then `publishedAt` descending, then applies `limit`/`skip`.
`UnifiedNewsService.searchNews` passes `100` as `options`; destructuring
a number yields the defaults `limit = 20, skip = 0`. -/
def searchArticles (renv : ReadEnv) (store : Store) (searchQuery : String)
    (limit : Nat := 20) (skip : Nat := 0) : List StoredRecord :=
  let matching := store.filter (fun r =>
    (renv.textScore searchQuery r).isSome && !r.isDeleted && !r.duplicate)
  let sorted := List.insertionSort
    (fun a b => scoreRank renv searchQuery b ≤ scoreRank renv searchQuery a)
    matching
  (sorted.drop skip).take limit

/-- Result envelope of `UnifiedNewsService.searchNews`. -/
structure SearchResult where
  success : Bool
  totalResults : Nat
  articles : List StoredRecord
  deriving Repr, DecidableEq

/-- `UnifiedNewsService.searchNews(query, filters)`: one
`News.searchArticles(query, 100)` store query, nothing else. -/
def searchNews (renv : ReadEnv) (store : Store) (query : String) :
    List Eff × SearchResult :=
  let dbResults := searchArticles renv store query
  ([Eff.storeFind],
   { success := true, totalResults := dbResults.length, articles := dbResults })

/-- `UnifiedNewsService.getTrendingNews(limit = 20)`:
`News.find().sort({publishedAt: -1, fetchedAt: -1}).limit(limit)`. -/
def getTrendingNews (store : Store) (limit : Nat := 20) :
    List Eff × SearchResult :=
  let articles := (List.insertionSort trendDescRel store).take limit
  ([Eff.storeFind],
   { success := true, totalResults := articles.length, articles := articles })

/-- One `$group`ed source row of `getSources`' aggregation. -/
structure SourceRow where
  id : Option String
  name : String
  articleCount : Nat
  deriving Repr, DecidableEq

/-- The `$match` query of `getSources`. -/
def matchesSourceQuery (f : DbFilters) (r : StoredRecord) : Bool :=
  (match f.country with | some c => r.country.contains c | none => true) &&
  (match f.language with | some l => r.language = l | none => true) &&
  (match f.category with | some c => r.category.contains c | none => true)

/-- `UnifiedNewsService.getSources(filters)`: a single aggregation —
`$match` the filters, `$group` by `source.id` taking `$first` name and a
count, `$sort {count: -1}`. Groups are enumerated in first-appearance
order before the sort. -/
def getSources (store : Store) (filters : DbFilters) :
    List Eff × List SourceRow :=
  let matching := store.filter (matchesSourceQuery filters)
  let ids := matching.foldl
    (fun acc r => if acc.contains r.sourceId then acc else acc ++ [r.sourceId])
    []
  let rows := ids.filterMap (fun i =>
    match matching.filter (fun r => r.sourceId = i) with
    | [] => none
    | r :: rs => some ⟨i, r.sourceName, rs.length + 1⟩)
  ([Eff.storeAggregate],
   List.insertionSort (fun a b => b.articleCount ≤ a.articleCount) rows)

/-- Result of `UnifiedNewsService.getStats`. -/
structure StatsResult where
  total : Nat
  newsDataIo : Nat
  newsApiOrg : Nat
  recentArticles : Nat
  deriving Repr, DecidableEq

/-- `UnifiedNewsService.getStats()`: four `countDocuments` store queries
(total, per `sourceApi`, and `fetchedAt` within the last 24 hours). -/
def getStats (store : Store) (now : Int) : List Eff × StatsResult :=
  ([Eff.storeCount, Eff.storeCount, Eff.storeCount, Eff.storeCount],
   { total := store.length
     newsDataIo := (store.filter (fun r => r.sourceApi = "newsdata.io")).length
     newsApiOrg := (store.filter (fun r => r.sourceApi = "newsapi.org")).length
     recentArticles :=
       (store.filter (fun r => now - 24 * 60 * 60 * 1000 ≤ r.fetchedAt)).length })

/-- `UnifiedNewsService.refreshCache(filters)` — the one Unified service
operation that does call the upstream clients (it backs the manual
`POST /refresh` endpoint, not any Read Service operation): it issues both
upstream calls and, when anything was normalized, one store write. -/
def refreshCache (env : FetchEnv) (now : Int) (store : Store)
    (filters : DbFilters) : List Eff × Store :=
  let ndOutcome := NewsApiService.getLatestNews env
    ⟨filters.category, filters.country, filters.language⟩
  let naOutcome := env.newsApiOrgHttp ⟨filters.country, filters.category, some 100⟩
  let fromNewsData :=
    match ndOutcome with
    | .ok result =>
      -- `newsDataResult.value?.results` hits the same `{success, data}`
      -- wrapper as `fetchFromNewsData`: the key is absent.
      match result.resultsKey with
      | some results => results.map normalizeNewsDataArticle
      | none => []
    | .error _ => []
  let fromNewsApiOrg :=
    match naOutcome with
    | .ok body =>
      body.articles.map (fun article =>
        normalizeNewsApiOrgArticle article
          (match filters.category with | some c => [c] | none => [])
          (match filters.country with | some c => [c] | none => []))
    | .error _ => []
  let normalizedArticles := fromNewsData ++ fromNewsApiOrg
  if normalizedArticles.length > 0 then
    ([Eff.upstreamNewsData, Eff.upstreamNewsApiOrg, Eff.storeWrite],
     (saveArticlesToDB now normalizedArticles store).1)
  else
    ([Eff.upstreamNewsData, Eff.upstreamNewsApiOrg], store)

/-- `News.findRecent(hours = 24, {limit = 20, skip = 0})` (News.model.js):
finds `{publishedAt: {$gte: hoursAgo}, isDeleted: false, duplicate:
false}`, sorts `publishedAt` descending, applies skip and limit. -/
def findRecent (store : Store) (now : Int) (hours : Int := 24)
    (limit : Nat := 20) (skip : Nat := 0) : List StoredRecord :=
  let hoursAgo := now - hours * 60 * 60 * 1000
  let matching := store.filter (fun r =>
    (match r.publishedAt with
     | some t => hoursAgo ≤ t
     | none => false) && !r.isDeleted && !r.duplicate)
  ((sortPubDesc matching).drop skip).take limit

/-! ### Store lemmas -/

theorem setFields_articleId (a : NormArticle) (r : StoredRecord) :
    (setFields a r).articleId = a.articleId := rfl

theorem updateFirst_map_articleId (a : NormArticle) (s : Store) :
    (updateFirst a s).map (fun r => r.articleId) =
      s.map (fun r => r.articleId) := by
  induction s with
  | nil => rfl
  | cons r rs ih =>
    by_cases h : r.articleId = a.articleId
    · simp [updateFirst, h, setFields]
    · simp [updateFirst, h, ih]

theorem updateFirst_map_fetchedAt (a : NormArticle) (s : Store) :
    (updateFirst a s).map (fun r => r.fetchedAt) =
      s.map (fun r => r.fetchedAt) := by
  induction s with
  | nil => rfl
  | cons r rs ih =>
    by_cases h : r.articleId = a.articleId
    · simp [updateFirst, h, setFields]
    · simp [updateFirst, h, ih]

theorem countKey_eq_map (s : Store) (k : String) :
    countKey s k =
      ((s.map (fun r => r.articleId)).filter (fun x => x = k)).length := by
  simp only [List.filter_map, List.length_map]
  rfl

theorem countKey_updateFirst (a : NormArticle) (s : Store) (k : String) :
    countKey (updateFirst a s) k = countKey s k := by
  simp [countKey_eq_map, updateFirst_map_articleId]

theorem uniqueKeys_iff_map (s : Store) :
    UniqueKeys s ↔ (s.map (fun r => r.articleId)).Pairwise (· ≠ ·) := by
  simp [UniqueKeys, List.pairwise_map]

theorem uniqueKeys_updateFirst (a : NormArticle) (s : Store)
    (hU : UniqueKeys s) : UniqueKeys (updateFirst a s) := by
  rw [uniqueKeys_iff_map, updateFirst_map_articleId, ← uniqueKeys_iff_map]
  exact hU

theorem countKey_le_one (s : Store) (k : String) (hU : UniqueKeys s) :
    countKey s k ≤ 1 := by
  induction s with
  | nil => simp [countKey]
  | cons r rs ih =>
    rw [UniqueKeys, List.pairwise_cons] at hU
    by_cases h : r.articleId = k
    · have hz : countKey rs k = 0 := by
        rw [countKey, List.length_eq_zero, List.filter_eq_nil_iff]
        intro x hx
        simpa using (h ▸ hU.1 x hx).symm
      have hc : countKey (r :: rs) k = countKey rs k + 1 := by
        simp [countKey, List.filter_cons, h]
      omega
    · have hc : countKey (r :: rs) k = countKey rs k := by
        simp [countKey, List.filter_cons, h]
      rw [hc]
      exact ih hU.2

theorem countKey_pos (s : Store) (k : String)
    (h : s.any (fun r => r.articleId = k) = true) : 1 ≤ countKey s k := by
  rw [List.any_eq_true] at h
  obtain ⟨r, hr, hk⟩ := h
  have hm : r ∈ s.filter (fun r => r.articleId = k) :=
    List.mem_filter.mpr ⟨hr, hk⟩
  have := List.length_pos.mpr (List.ne_nil_of_mem hm)
  rw [countKey]
  omega

theorem countKey_zero_of_not_any (s : Store) (k : String)
    (h : s.any (fun r => r.articleId = k) = false) : countKey s k = 0 := by
  rw [countKey, List.length_eq_zero, List.filter_eq_nil_iff]
  intro x hx
  simp only [List.any_eq_false] at h
  simpa using h x hx

theorem applyUpsertOne_countKey_self (now : Int) (a : NormArticle) (s : Store)
    (hU : UniqueKeys s) :
    countKey (applyUpsertOne now s a).1 a.articleId = 1 := by
  by_cases h : s.any (fun r => r.articleId = a.articleId)
  · rw [applyUpsertOne, if_pos h]
    rw [countKey_updateFirst]
    exact Nat.le_antisymm (countKey_le_one s _ hU) (countKey_pos s _ h)
  · rw [applyUpsertOne, if_neg h]
    have hz := countKey_zero_of_not_any s a.articleId (Bool.eq_false_iff.mpr h)
    rw [countKey] at hz ⊢
    rw [List.filter_append, List.length_append, hz]
    simp [insertRecord, List.filter]

theorem applyUpsertOne_uniqueKeys (now : Int) (a : NormArticle) (s : Store)
    (hU : UniqueKeys s) : UniqueKeys (applyUpsertOne now s a).1 := by
  by_cases h : s.any (fun r => r.articleId = a.articleId)
  · rw [applyUpsertOne, if_pos h]
    exact uniqueKeys_updateFirst a s hU
  · rw [applyUpsertOne, if_neg h]
    rw [UniqueKeys, List.pairwise_append]
    refine ⟨hU, by simp, ?_⟩
    intro r hr b hb
    simp only [List.mem_singleton] at hb
    subst hb
    rw [Bool.not_eq_true, List.any_eq_false] at h
    simpa [insertRecord] using h r hr

theorem saveArticles_singleton_fst (now : Int) (a : NormArticle) (s : Store) :
    (saveArticlesToDB now [a] s).1 = (applyUpsertOne now s a).1 := by
  rcases h : applyUpsertOne now s a with ⟨s1, b⟩
  cases b <;> simp [saveArticlesToDB, bulkWriteUpserts, h]

theorem bulkUpsert_singleton_fst (now : Int) (a : NormArticle) (s : Store) :
    (News.bulkUpsert now [a] s).1 = (applyUpsertOne now s a).1 := by
  rcases h : applyUpsertOne now s a with ⟨s1, b⟩
  cases b <;> simp [News.bulkUpsert, bulkWriteUpserts, h]

theorem commit_iterate_countKey (now : Int) (a : NormArticle) :
    ∀ (k : Nat) (s : Store), UniqueKeys s →
      countKey ((fun s => (applyUpsertOne now s a).1)^[k + 1] s) a.articleId = 1 := by
  intro k
  induction k with
  | zero =>
    intro s hU
    simpa using applyUpsertOne_countKey_self now a s hU
  | succ k ih =>
    intro s hU
    rw [Function.iterate_succ_apply]
    exact ih _ (applyUpsertOne_uniqueKeys now a s hU)

/-- Shared sample raw NewsData.io article for concrete evaluations. -/
def sampleNDRaw : RawNewsDataArticle :=
  { article_id := some "a1"
    title := some "Sample title"
    description := some "desc"
    content := some "content"
    link := some "https://example.com/a1"
    image_url := none
    pubDate := some 1700000000000
    source_id := some "src"
    source_name := some "Source"
    creator := none
    category := some ["business"]
    country := some ["us"]
    language := some "en"
    keywords := none
    sentiment := none
    video_url := none
    ai_tag := none
    duplicate := none }

/-- Shared sample raw NewsAPI.org article for concrete evaluations. -/
def sampleNARaw : RawNewsApiOrgArticle :=
  { url := some "https://example.com/b1"
    title := some "Another title"
    description := some "desc b"
    content := some "content b"
    urlToImage := none
    publishedAt := some 1700000100000
    sourceId := some "bsrc"
    sourceName := some "BSource"
    author := some "Author B" }

/-- C1: committing one normalized record `N ≥ 1` times through the
ingestion path's bulk upsert — either the scheduler's `saveArticlesToDB`
or `News.bulkUpsert`, both keyed on `articleId` — leaves exactly one
stored record with that `articleId` in any store satisfying the unique
`articleId` index: a colliding write updates in place, never duplicates. -/
theorem upsert_same_record_leaves_one (r : NormArticle) (N : Nat) (now : Int)
    (store : Store) (hU : UniqueKeys store) (hN : 1 ≤ N) :
    countKey ((fun s => (saveArticlesToDB now [r] s).1)^[N] store) r.articleId = 1 ∧
    countKey ((fun s => (News.bulkUpsert now [r] s).1)^[N] store) r.articleId = 1 := by
  have hsave : (fun s => (saveArticlesToDB now [r] s).1) =
      (fun s => (applyUpsertOne now s r).1) :=
    funext (fun s => saveArticles_singleton_fst now r s)
  have hbulk : (fun s => (News.bulkUpsert now [r] s).1) =
      (fun s => (applyUpsertOne now s r).1) :=
    funext (fun s => bulkUpsert_singleton_fst now r s)
  obtain ⟨k, rfl⟩ : ∃ k, N = k + 1 :=
    ⟨N - 1, (Nat.succ_pred_eq_of_pos hN).symm⟩
  rw [hsave, hbulk]
  exact ⟨commit_iterate_countKey now r k store hU,
         commit_iterate_countKey now r k store hU⟩

/-- Witness for C1 at a concrete record, `N = 2`, empty store. -/
theorem upsert_same_record_leaves_one_witness :
    countKey ((fun s => (saveArticlesToDB 5 [normalizeNewsDataArticle sampleNDRaw] s).1)^[2] [])
        (normalizeNewsDataArticle sampleNDRaw).articleId = 1 ∧
    countKey ((fun s => (News.bulkUpsert 5 [normalizeNewsDataArticle sampleNDRaw] s).1)^[2] [])
        (normalizeNewsDataArticle sampleNDRaw).articleId = 1 :=
  upsert_same_record_leaves_one (normalizeNewsDataArticle sampleNDRaw) 2 5 []
    (by decide) (by decide)

/-- The two provider tags prepend incompatible prefixes: no string starts
with both `"newsdata_"` and `"newsapi_"`. -/
theorem newsdata_newsapi_prefix_ne (x y : String) :
    ("newsdata_" ++ x) ≠ ("newsapi_" ++ y) := by
  intro h
  have hd := congrArg String.data h
  simp only [String.data_append] at hd
  have e1 : (['n', 'e', 'w', 's', 'd', 'a', 't', 'a', '_'] ++ x.data).take 5 =
      ['n', 'e', 'w', 's', 'd'] := by
    rw [List.take_append_of_le_length (by decide)]; decide
  have e2 : (['n', 'e', 'w', 's', 'a', 'p', 'i', '_'] ++ y.data).take 5 =
      ['n', 'e', 'w', 's', 'a'] := by
    rw [List.take_append_of_le_length (by decide)]; decide
  have h5 := congrArg (fun l => l.take 5) hd
  simp only [e1, e2] at h5
  exact absurd h5 (by decide)

/-- C3: the dedup key is `providerTag + "_" + (nativeId-or-url)`,
deterministically: (i) two NewsData.io raws with the same non-empty
`article_id` normalize to the same `articleId`; (ii) with the native id
absent (or empty, which JS `||` also treats as absent) and the same
`link`, likewise; (iii) two NewsAPI.org raws with the same `url`
normalize to the same `articleId`; (iv) a NewsData.io record and a
NewsAPI.org record never share an `articleId`, whatever their URLs. -/
theorem dedup_key_derivation :
    (∀ (a b : RawNewsDataArticle) (i : String),
      a.article_id = some i → b.article_id = some i → i ≠ "" →
      (normalizeNewsDataArticle a).articleId =
        (normalizeNewsDataArticle b).articleId) ∧
    (∀ (a b : RawNewsDataArticle),
      jsFalsyStr a.article_id = true → jsFalsyStr b.article_id = true →
      a.link = b.link →
      (normalizeNewsDataArticle a).articleId =
        (normalizeNewsDataArticle b).articleId) ∧
    (∀ (a b : RawNewsApiOrgArticle) (ca cb na nb : List String),
      a.url = b.url →
      (normalizeNewsApiOrgArticle a ca na).articleId =
        (normalizeNewsApiOrgArticle b cb nb).articleId) ∧
    (∀ (a : RawNewsDataArticle) (b : RawNewsApiOrgArticle)
      (c n : List String),
      (normalizeNewsDataArticle a).articleId ≠
        (normalizeNewsApiOrgArticle b c n).articleId) := by
  refine ⟨?_, ?_, ?_, ?_⟩
  · intro a b i ha hb hi
    simp [normalizeNewsDataArticle, jsOr, ha, hb, hi]
  · intro a b ha hb hl
    have ha' : jsOr a.article_id a.link = a.link := by
      rcases h : a.article_id with _ | s
      · simp [jsOr]
      · rw [h] at ha
        simp [jsFalsyStr] at ha
        simp [jsOr, ha]
    have hb' : jsOr b.article_id b.link = b.link := by
      rcases h : b.article_id with _ | s
      · simp [jsOr]
      · rw [h] at hb
        simp [jsFalsyStr] at hb
        simp [jsOr, hb]
    simp only [normalizeNewsDataArticle]
    rw [ha', hb', hl]
  · intro a b ca cb na nb h
    simp [normalizeNewsApiOrgArticle, h]
  · intro a b c n
    exact newsdata_newsapi_prefix_ne _ _

/-- Witness for C3 at concrete raw articles: same non-empty native id,
absent native id with shared URL, shared NewsAPI.org URL, and the
cross-provider case with an identical URL on both sides. -/
theorem dedup_key_derivation_witness :
    ((normalizeNewsDataArticle sampleNDRaw).articleId =
      (normalizeNewsDataArticle { sampleNDRaw with title := none }).articleId) ∧
    ((normalizeNewsDataArticle { sampleNDRaw with article_id := none }).articleId =
      (normalizeNewsDataArticle
        { sampleNDRaw with article_id := some "", title := none }).articleId) ∧
    ((normalizeNewsApiOrgArticle sampleNARaw ["business"] ["us"]).articleId =
      (normalizeNewsApiOrgArticle { sampleNARaw with author := none } [] []).articleId) ∧
    ((normalizeNewsDataArticle
        { sampleNDRaw with article_id := none, link := some "https://shared.example/x" }).articleId ≠
      (normalizeNewsApiOrgArticle
        { sampleNARaw with url := some "https://shared.example/x" } [] []).articleId) :=
  ⟨dedup_key_derivation.1 sampleNDRaw { sampleNDRaw with title := none } "a1"
      rfl rfl (by decide),
   dedup_key_derivation.2.1 { sampleNDRaw with article_id := none }
      { sampleNDRaw with article_id := some "", title := none }
      (by decide) (by decide) rfl,
   dedup_key_derivation.2.2.1 sampleNARaw { sampleNARaw with author := none }
      ["business"] [] ["us"] [] rfl,
   dedup_key_derivation.2.2.2
      { sampleNDRaw with article_id := none, link := some "https://shared.example/x" }
      { sampleNARaw with url := some "https://shared.example/x" } [] []⟩

theorem updateFirst_mem_of_any (a : NormArticle) (s : Store)
    (h : s.any (fun r => r.articleId = a.articleId) = true) :
    ∃ r ∈ updateFirst a s, r.articleId = a.articleId ∧
      r.title = a.title ∧ r.publishedAt = a.publishedAt := by
  induction s with
  | nil => simp at h
  | cons r rs ih =>
    by_cases hr : r.articleId = a.articleId
    · refine ⟨setFields a r, ?_, rfl, rfl, rfl⟩
      simp [updateFirst, hr]
    · have h' : rs.any (fun r => r.articleId = a.articleId) = true := by
        simpa [List.any_cons, hr] using h
      obtain ⟨x, hx, hprops⟩ := ih h'
      exact ⟨x, by simp [updateFirst, hr, hx], hprops⟩

theorem mem_after_applyUpsertOne (now : Int) (a : NormArticle) (s : Store) :
    ∃ r ∈ (applyUpsertOne now s a).1, r.articleId = a.articleId ∧
      r.title = a.title ∧ r.publishedAt = a.publishedAt := by
  by_cases h : s.any (fun r => r.articleId = a.articleId)
  · rw [applyUpsertOne, if_pos h]
    exact updateFirst_mem_of_any a s h
  · rw [applyUpsertOne, if_neg h]
    exact ⟨insertRecord now a, by simp, rfl, rfl, rfl⟩

theorem saveArticlesWithCast_of_casts (now : Int)
    (articles : List NormArticle) (store : Store)
    (h : articles.all setPayloadCasts = true) :
    saveArticlesToDBWithCast now articles store =
      .ok (saveArticlesToDB now articles store) := by
  by_cases he : articles.isEmpty
  · rw [saveArticlesToDBWithCast, if_pos he, saveArticlesToDB, if_pos he]
  · rw [saveArticlesToDBWithCast, if_neg he, saveArticlesToDB, if_neg he,
      News.bulkWriteWithCast, if_pos h]

/-- C5 (amended): the normalizer performs no required-field validation —
it emits a canonical record for every raw article, carrying a missing
`title`/`url` or an unparseable `publishedAt` through unchanged. What
happens at the store then depends on which field is bad: a payload that
casts — in particular one merely missing `title` or `url` — is committed
as-is, since update-path `$set` ops run no required-field validators;
a payload whose `publishedAt` is an Invalid Date is never committed, but
not by graceful per-record dropping: Mongoose's cast raises a `CastError`
that rejects the whole `bulkWrite` call, so nothing in that batch is
written and the save throws. -/
theorem missing_fields_normalize_and_commit (a : RawNewsDataArticle)
    (now : Int) (store : Store) :
    (normalizeNewsDataArticle a).title = a.title ∧
    (normalizeNewsDataArticle a).publishedAt = a.pubDate ∧
    (a.pubDate.isSome = true →
      ∃ s1 res,
        saveArticlesToDBWithCast now [normalizeNewsDataArticle a] store =
          .ok (s1, res) ∧
        ∃ r ∈ s1, r.articleId = (normalizeNewsDataArticle a).articleId ∧
          r.title = a.title ∧ r.publishedAt = a.pubDate) ∧
    (a.pubDate = none →
      saveArticlesToDBWithCast now [normalizeNewsDataArticle a] store =
        .error "CastError: Cast to date failed") := by
  have hpub : (normalizeNewsDataArticle a).publishedAt = a.pubDate := rfl
  refine ⟨rfl, rfl, ?_, ?_⟩
  · intro h
    have hall : [normalizeNewsDataArticle a].all setPayloadCasts = true := by
      simp [setPayloadCasts, hpub, h]
    refine ⟨(saveArticlesToDB now [normalizeNewsDataArticle a] store).1,
            (saveArticlesToDB now [normalizeNewsDataArticle a] store).2,
            ?_, ?_⟩
    · rw [saveArticlesWithCast_of_casts now _ store hall]
    · rw [saveArticles_singleton_fst]
      exact mem_after_applyUpsertOne now (normalizeNewsDataArticle a) store
  · intro h
    rw [saveArticlesToDBWithCast, if_neg (by simp), News.bulkWriteWithCast,
      if_neg (by simp [setPayloadCasts, hpub, h])]

/-- Witness for C5's amended statement: a raw article with no `title`
(valid date) is committed title-less, and one with an unparseable
`publishedAt` makes the whole save reject. -/
theorem missing_fields_normalize_and_commit_witness :
    (∃ s1 res,
      saveArticlesToDBWithCast 7
          [normalizeNewsDataArticle { sampleNDRaw with title := none }] [] =
        .ok (s1, res) ∧
      ∃ r ∈ s1,
        r.articleId =
          (normalizeNewsDataArticle { sampleNDRaw with title := none }).articleId ∧
        r.title = ({ sampleNDRaw with title := none } : RawNewsDataArticle).title ∧
        r.publishedAt =
          ({ sampleNDRaw with title := none } : RawNewsDataArticle).pubDate) ∧
    (saveArticlesToDBWithCast 7
        [normalizeNewsDataArticle { sampleNDRaw with pubDate := none }] [] =
      .error "CastError: Cast to date failed") :=
  ⟨(missing_fields_normalize_and_commit { sampleNDRaw with title := none }
      7 []).2.2.1 rfl,
   (missing_fields_normalize_and_commit { sampleNDRaw with pubDate := none }
      7 []).2.2.2 rfl⟩

/-- Counterexample to C5 as stated: a raw article missing `title` is
dropped nowhere — the normalizer emits a record for it and the write
path, casting stage included, commits it: the store ends up holding a
title-less document. -/
theorem missing_fields_rejection_counterexample :
    ({ sampleNDRaw with title := none } : RawNewsDataArticle).title = none ∧
    saveArticlesToDBWithCast 7
        [normalizeNewsDataArticle { sampleNDRaw with title := none }] [] =
      .ok ([insertRecord 7
            (normalizeNewsDataArticle { sampleNDRaw with title := none })],
           ⟨1, 0⟩) ∧
    (insertRecord 7
      (normalizeNewsDataArticle { sampleNDRaw with title := none })).title =
        none := by
  refine ⟨rfl, rfl, rfl⟩

/-- C9 (amended): `fetchedAt` is set to the write time by the *insert*
path of an ingestion upsert (schema default on insert); a later upsert of
an existing `articleId` updates the record via `$set` — whose payload
carries no `fetchedAt` — so `fetchedAt` keeps the value of the original
insert rather than the time of the latest write. -/
theorem fetchedAt_set_on_insert_only (a : NormArticle) (now : Int)
    (store : Store) :
    (store.any (fun r => r.articleId = a.articleId) = false →
      ∃ r ∈ (saveArticlesToDB now [a] store).1,
        r.articleId = a.articleId ∧ r.fetchedAt = now) ∧
    (store.any (fun r => r.articleId = a.articleId) = true →
      (saveArticlesToDB now [a] store).1.map (fun r => r.fetchedAt) =
        store.map (fun r => r.fetchedAt)) := by
  constructor
  · intro h
    rw [saveArticles_singleton_fst, applyUpsertOne, if_neg (by simp [h])]
    exact ⟨insertRecord now a, by simp, rfl, rfl⟩
  · intro h
    rw [saveArticles_singleton_fst, applyUpsertOne, if_pos h]
    exact updateFirst_map_fetchedAt a store

/-- Witness for C9's amended statement at a concrete record: insert into
an empty store at time 100, then a second upsert at time 200. -/
theorem fetchedAt_set_on_insert_only_witness :
    (([] : Store).any (fun r => r.articleId = (normalizeNewsDataArticle sampleNDRaw).articleId) = false ∧
      ∃ r ∈ (saveArticlesToDB 100 [normalizeNewsDataArticle sampleNDRaw] []).1,
        r.articleId = (normalizeNewsDataArticle sampleNDRaw).articleId ∧
        r.fetchedAt = 100) ∧
    ((saveArticlesToDB 100 [normalizeNewsDataArticle sampleNDRaw] []).1.any
        (fun r => r.articleId = (normalizeNewsDataArticle sampleNDRaw).articleId) = true ∧
      (saveArticlesToDB 200 [normalizeNewsDataArticle sampleNDRaw]
          (saveArticlesToDB 100 [normalizeNewsDataArticle sampleNDRaw] []).1).1.map
          (fun r => r.fetchedAt) =
        (saveArticlesToDB 100 [normalizeNewsDataArticle sampleNDRaw] []).1.map
          (fun r => r.fetchedAt)) :=
  ⟨⟨rfl, (fetchedAt_set_on_insert_only (normalizeNewsDataArticle sampleNDRaw)
      100 []).1 rfl⟩,
   ⟨rfl, (fetchedAt_set_on_insert_only (normalizeNewsDataArticle sampleNDRaw)
      200 (saveArticlesToDB 100 [normalizeNewsDataArticle sampleNDRaw] []).1).2 rfl⟩⟩

/-- Counterexample to C9 as stated: insert a record at time 100, upsert
the same record again at time 200 — the stored `fetchedAt` is still 100,
not the time of the second write. -/
theorem fetchedAt_counterexample :
    ((saveArticlesToDB 200 [normalizeNewsDataArticle sampleNDRaw]
        (saveArticlesToDB 100 [normalizeNewsDataArticle sampleNDRaw] []).1).1.map
        (fun r => r.fetchedAt)) = [100] ∧ (100 : Int) ≠ 200 := by
  constructor
  · rfl
  · decide

/-- `fetchFromNewsData` returns `[]` on *every* outcome: a thrown error is
caught, and a successful call yields the `{success, data}` wrapper on
which the `result?.results` access is `undefined`, so the truthiness
check falls through to `return []`. (The NewsData.io articles are only
reachable at `result.data.results`, which the scheduler never reads.) -/
theorem fetchFromNewsData_eq_nil (env : FetchEnv) (config : NDConfig) :
    fetchFromNewsData env config = [] := by
  rw [fetchFromNewsData, NewsApiService.getLatestNews]
  rcases env.newsDataHttp config with _ | body <;> rfl

/-- The articles a slot execution accumulates (`allArticles` in
`executeScheduledFetch`). -/
def slotAllArticles (env : FetchEnv) (schedule : Schedule) : List NormArticle :=
  (schedule.newsDataConfig.map (fetchFromNewsData env)).flatten ++
    (schedule.newsApiConfig.map (fetchFromNewsApiOrg env)).flatten

theorem executeScheduledFetch_invalid (env : FetchEnv) (now : Int)
    (scheduleName : String) (store : Store) (st : SchedulerState)
    (h : fetchScheduleLookup scheduleName = none) :
    executeScheduledFetch env now scheduleName store st = (store, st) := by
  rw [executeScheduledFetch, h]

theorem executeScheduledFetch_valid_nonempty_ok (env : FetchEnv) (now : Int)
    (scheduleName : String) (store : Store) (st : SchedulerState)
    (schedule : Schedule)
    (hlook : fetchScheduleLookup scheduleName = some schedule)
    (hne : slotAllArticles env schedule ≠ [])
    (hok : env.bulkWriteOk = true) :
    executeScheduledFetch env now scheduleName store st =
      ((saveArticlesToDB now (slotAllArticles env schedule) store).1,
        { lastFetchTimes := st.lastFetchTimes.set scheduleName now
          fetchStats :=
            { totalFetches := st.fetchStats.totalFetches + 1
              successfulFetches := st.fetchStats.successfulFetches + 1
              failedFetches := st.fetchStats.failedFetches
              articlesSaved := st.fetchStats.articlesSaved +
                (saveArticlesToDB now (slotAllArticles env schedule) store).2.saved } }) := by
  rw [executeScheduledFetch, hlook]
  have hlen : (slotAllArticles env schedule).length > 0 :=
    List.length_pos.mpr hne
  rw [slotAllArticles] at hlen
  simp only [if_pos hlen, hok, if_pos]
  rcases h : saveArticlesToDB now
      ((schedule.newsDataConfig.map (fetchFromNewsData env)).flatten ++
        (schedule.newsApiConfig.map (fetchFromNewsApiOrg env)).flatten) store
    with ⟨s1, res⟩
  simp [slotAllArticles, h]

theorem executeScheduledFetch_valid_nonempty_fail (env : FetchEnv) (now : Int)
    (scheduleName : String) (store : Store) (st : SchedulerState)
    (schedule : Schedule)
    (hlook : fetchScheduleLookup scheduleName = some schedule)
    (hne : slotAllArticles env schedule ≠ [])
    (hok : env.bulkWriteOk = false) :
    executeScheduledFetch env now scheduleName store st =
      (store,
        { lastFetchTimes := st.lastFetchTimes
          fetchStats :=
            { totalFetches := st.fetchStats.totalFetches + 1
              successfulFetches := st.fetchStats.successfulFetches
              failedFetches := st.fetchStats.failedFetches + 1
              articlesSaved := st.fetchStats.articlesSaved } }) := by
  rw [executeScheduledFetch, hlook]
  have hlen : (slotAllArticles env schedule).length > 0 :=
    List.length_pos.mpr hne
  rw [slotAllArticles] at hlen
  simp only [if_pos hlen, hok, Bool.false_eq_true, if_false]

theorem executeScheduledFetch_valid_empty (env : FetchEnv) (now : Int)
    (scheduleName : String) (store : Store) (st : SchedulerState)
    (schedule : Schedule)
    (hlook : fetchScheduleLookup scheduleName = some schedule)
    (hemp : slotAllArticles env schedule = []) :
    executeScheduledFetch env now scheduleName store st =
      (store,
        { lastFetchTimes := st.lastFetchTimes
          fetchStats :=
            { st.fetchStats with
              totalFetches := st.fetchStats.totalFetches + 1 } }) := by
  rw [executeScheduledFetch, hlook]
  rw [slotAllArticles] at hemp
  simp [hemp]

/-- The scheduler's state at construction: all last-fetch times `null`,
all counters zero. -/
def initSchedulerState : SchedulerState :=
  { lastFetchTimes := ⟨none, none, none, none, none⟩
    fetchStats := ⟨0, 0, 0, 0⟩ }

/-- C7 (amended): a slot execution with a *valid* name increments
`totalFetches` by exactly 1, but the remaining accounting is three-way,
not two-way: when at least one article was fetched and the save does not
throw, `successfulFetches` is incremented and `lastFetchTimes[slot]` set;
when the save throws, `failedFetches` is incremented and
`lastFetchTimes` left alone; and when *zero* articles were fetched the
execution increments neither `successfulFetches` nor `failedFetches`
and leaves `lastFetchTimes` unchanged (so "exactly one of
success/failure" fails, and a non-throwing zero-commit execution does
not refresh the slot's last-fetch time). -/
theorem scheduler_stats_accounting (env : FetchEnv) (now : Int)
    (scheduleName : String) (store : Store) (st : SchedulerState)
    (schedule : Schedule)
    (hlook : fetchScheduleLookup scheduleName = some schedule) :
    ((executeScheduledFetch env now scheduleName store st).2.fetchStats.totalFetches =
      st.fetchStats.totalFetches + 1) ∧
    (slotAllArticles env schedule ≠ [] → env.bulkWriteOk = true →
      (executeScheduledFetch env now scheduleName store st).2 =
        { lastFetchTimes := st.lastFetchTimes.set scheduleName now
          fetchStats :=
            { totalFetches := st.fetchStats.totalFetches + 1
              successfulFetches := st.fetchStats.successfulFetches + 1
              failedFetches := st.fetchStats.failedFetches
              articlesSaved := st.fetchStats.articlesSaved +
                (saveArticlesToDB now (slotAllArticles env schedule) store).2.saved } }) ∧
    (slotAllArticles env schedule ≠ [] → env.bulkWriteOk = false →
      (executeScheduledFetch env now scheduleName store st).2 =
        { lastFetchTimes := st.lastFetchTimes
          fetchStats :=
            { totalFetches := st.fetchStats.totalFetches + 1
              successfulFetches := st.fetchStats.successfulFetches
              failedFetches := st.fetchStats.failedFetches + 1
              articlesSaved := st.fetchStats.articlesSaved } }) ∧
    (slotAllArticles env schedule = [] →
      (executeScheduledFetch env now scheduleName store st).2 =
        { lastFetchTimes := st.lastFetchTimes
          fetchStats :=
            { st.fetchStats with
              totalFetches := st.fetchStats.totalFetches + 1 } }) := by
  refine ⟨?_, ?_, ?_, ?_⟩
  · by_cases hemp : slotAllArticles env schedule = []
    · rw [executeScheduledFetch_valid_empty env now scheduleName store st
        schedule hlook hemp]
    · cases hok : env.bulkWriteOk
      · rw [executeScheduledFetch_valid_nonempty_fail env now scheduleName
          store st schedule hlook hemp hok]
      · rw [executeScheduledFetch_valid_nonempty_ok env now scheduleName
          store st schedule hlook hemp hok]
  · intro hne hok
    rw [executeScheduledFetch_valid_nonempty_ok env now scheduleName store st
      schedule hlook hne hok]
  · intro hne hok
    rw [executeScheduledFetch_valid_nonempty_fail env now scheduleName store
      st schedule hlook hne hok]
  · intro hemp
    rw [executeScheduledFetch_valid_empty env now scheduleName store st
      schedule hlook hemp]

/-- Environment in which every upstream call fails. -/
def envAllDown : FetchEnv :=
  { newsDataHttp := fun _ => .error "provider down"
    newsApiOrgHttp := fun _ => .error "provider down"
    bulkWriteOk := true }

/-- Witness for C7's amended statement: the zero-article branch at a
concrete run ("MORNING", both providers down). -/
theorem scheduler_stats_accounting_witness :
    ((executeScheduledFetch envAllDown 9 "MORNING" [] initSchedulerState).2.fetchStats.totalFetches =
      initSchedulerState.fetchStats.totalFetches + 1) ∧
    ((executeScheduledFetch envAllDown 9 "MORNING" [] initSchedulerState).2 =
      { lastFetchTimes := initSchedulerState.lastFetchTimes
        fetchStats :=
          { initSchedulerState.fetchStats with
            totalFetches := initSchedulerState.fetchStats.totalFetches + 1 } }) :=
  ⟨(scheduler_stats_accounting envAllDown 9 "MORNING" [] initSchedulerState
      FETCH_SCHEDULE_MORNING rfl).1,
   (scheduler_stats_accounting envAllDown 9 "MORNING" [] initSchedulerState
      FETCH_SCHEDULE_MORNING rfl).2.2.2 rfl⟩

/-- Counterexample to C7 as stated: a valid "MORNING" execution in which
every upstream fetch fails accumulates zero articles — `totalFetches`
goes up by 1 but *neither* `successfulFetches` nor `failedFetches` is
incremented, and `lastFetchTimes["MORNING"]` stays `null` even though the
execution committed zero records without throwing. -/
theorem scheduler_stats_accounting_counterexample :
    (executeScheduledFetch envAllDown 9 "MORNING" [] initSchedulerState).2.fetchStats =
      ⟨1, 0, 0, 0⟩ ∧
    ((executeScheduledFetch envAllDown 9 "MORNING" [] initSchedulerState).2.lastFetchTimes.get
      "MORNING") = none := by
  constructor <;> rfl

/-- Second sample NewsData.io article (distinct native id and URL). -/
def sampleNDRaw2 : RawNewsDataArticle :=
  { sampleNDRaw with
    article_id := some "a2"
    link := some "https://example.com/a2"
    title := some "Second title" }

/-- Environment for the basic-ingestion scenario: Provider A's "MORNING"
fetches return 2 valid raw articles in total (both on the first parameter
set), Provider B's return 1 valid raw article in total. -/
def envBasicIngestion : FetchEnv :=
  { newsDataHttp := fun c =>
      if c = ⟨some "business", some "in", some "en"⟩ then
        .ok ⟨"success", 2, [sampleNDRaw, sampleNDRaw2]⟩
      else .ok ⟨"success", 0, []⟩
    newsApiOrgHttp := fun c =>
      if c = ⟨some "in", some "business", some 100⟩ then
        .ok ⟨"ok", 1, [sampleNARaw]⟩
      else .ok ⟨"ok", 0, []⟩
    bulkWriteOk := true }

/-- C4, evaluated at the failing input: with Provider A returning 2 valid
raw articles and Provider B returning 1 for "MORNING",
`executeScheduledFetch("MORNING")` commits only **1** record (Provider
B's) instead of 3, and `stats.articlesSaved` increases by 1, not 3 —
because `fetchFromNewsData` reads `result?.results` while
`NewsApiService.getLatestNews` returns `{success, data: body}` (the
results live at `result.data.results`), so every NewsData.io article is
dropped. `lastFetchTimes["MORNING"]` is still set. -/
theorem basic_ingestion_drops_newsdata_articles :
    ((FETCH_SCHEDULE_MORNING.newsDataConfig.map (fun c =>
        match envBasicIngestion.newsDataHttp c with
        | .ok body => body.results.length
        | .error _ => 0)).sum = 2) ∧
    ((FETCH_SCHEDULE_MORNING.newsApiConfig.map (fun c =>
        match envBasicIngestion.newsApiOrgHttp c with
        | .ok body => body.articles.length
        | .error _ => 0)).sum = 1) ∧
    ((executeScheduledFetch envBasicIngestion 42 "MORNING" []
        initSchedulerState).1.length = 1) ∧
    ((executeScheduledFetch envBasicIngestion 42 "MORNING" []
        initSchedulerState).1.all (fun r => r.sourceApi = "newsapi.org") = true) ∧
    ((executeScheduledFetch envBasicIngestion 42 "MORNING" []
        initSchedulerState).2.fetchStats.articlesSaved = 1) ∧
    ((executeScheduledFetch envBasicIngestion 42 "MORNING" []
        initSchedulerState).2.lastFetchTimes.get "MORNING" = some 42) := by
  refine ⟨rfl, rfl, rfl, rfl, rfl, rfl⟩

theorem any_key_eq_map (s : Store) (k : String) :
    s.any (fun r => r.articleId = k) =
      (s.map (fun r => r.articleId)).any (fun x => x = k) := by
  induction s with
  | nil => rfl
  | cons r rs ih => simp [List.any_cons, ih]

theorem any_key_updateFirst (a : NormArticle) (s : Store) (k : String) :
    (updateFirst a s).any (fun r => r.articleId = k) =
      s.any (fun r => r.articleId = k) := by
  rw [any_key_eq_map, updateFirst_map_articleId, ← any_key_eq_map]

theorem any_key_self_applyUpsertOne (now : Int) (a : NormArticle) (s : Store) :
    (applyUpsertOne now s a).1.any (fun r => r.articleId = a.articleId) = true := by
  by_cases h : s.any (fun r => r.articleId = a.articleId)
  · rw [applyUpsertOne, if_pos h, any_key_updateFirst]
    exact h
  · rw [applyUpsertOne, if_neg h]
    simp [List.any_append, insertRecord]

theorem any_key_mono_applyUpsertOne (now : Int) (a : NormArticle) (s : Store)
    (k : String) (h : s.any (fun r => r.articleId = k) = true) :
    (applyUpsertOne now s a).1.any (fun r => r.articleId = k) = true := by
  by_cases hp : s.any (fun r => r.articleId = a.articleId)
  · rw [applyUpsertOne, if_pos hp, any_key_updateFirst]
    exact h
  · rw [applyUpsertOne, if_neg hp]
    simp [List.any_append, h]

theorem bulkWriteUpserts_cons_fst (now : Int) (a : NormArticle)
    (rest : List NormArticle) (s : Store) :
    (bulkWriteUpserts now (a :: rest) s).1 =
      (bulkWriteUpserts now rest (applyUpsertOne now s a).1).1 := by
  rcases h : applyUpsertOne now s a with ⟨s1, b⟩
  rcases h2 : bulkWriteUpserts now rest s1 with ⟨s2, counts⟩
  cases b <;> simp [bulkWriteUpserts, h, h2]

theorem any_key_mono_bulkWriteUpserts (now : Int)
    (batch : List NormArticle) :
    ∀ (s : Store) (k : String), s.any (fun r => r.articleId = k) = true →
      (bulkWriteUpserts now batch s).1.any (fun r => r.articleId = k) = true := by
  induction batch with
  | nil => intro s k h; exact h
  | cons a rest ih =>
    intro s k h
    rw [bulkWriteUpserts_cons_fst]
    exact ih _ k (any_key_mono_applyUpsertOne now a s k h)

theorem any_key_of_mem_bulkWriteUpserts (now : Int)
    (batch : List NormArticle) :
    ∀ (s : Store) (a : NormArticle), a ∈ batch →
      (bulkWriteUpserts now batch s).1.any
        (fun r => r.articleId = a.articleId) = true := by
  induction batch with
  | nil => intro s a ha; simp at ha
  | cons b rest ih =>
    intro s a ha
    rw [bulkWriteUpserts_cons_fst]
    rcases List.mem_cons.mp ha with rfl | ha'
    · exact any_key_mono_bulkWriteUpserts now rest _ _
        (any_key_self_applyUpsertOne now a s)
    · exact ih _ a ha'

theorem bulkWriteUpserts_cons_upserted (now : Int) (a : NormArticle)
    (rest : List NormArticle) (s : Store) :
    (bulkWriteUpserts now (a :: rest) s).2.upsertedCount =
      (bulkWriteUpserts now rest (applyUpsertOne now s a).1).2.upsertedCount +
        (if (applyUpsertOne now s a).2 then 1 else 0) := by
  rcases h : applyUpsertOne now s a with ⟨s1, b⟩
  rcases h2 : bulkWriteUpserts now rest s1 with ⟨s2, counts⟩
  cases b <;> simp [bulkWriteUpserts, h, h2]

theorem upsertedCount_pos_of_fresh (now : Int) (batch : List NormArticle) :
    ∀ (s : Store),
      (∃ a ∈ batch, s.any (fun r => r.articleId = a.articleId) = false) →
      1 ≤ (bulkWriteUpserts now batch s).2.upsertedCount := by
  induction batch with
  | nil => intro s h; simp at h
  | cons b rest ih =>
    intro s h
    rw [bulkWriteUpserts_cons_upserted]
    by_cases hb : s.any (fun r => r.articleId = b.articleId)
    · have hupd : applyUpsertOne now s b = (updateFirst b s, false) := by
        rw [applyUpsertOne, if_pos hb]
      obtain ⟨a, ha, hfresh⟩ := h
      rcases List.mem_cons.mp ha with rfl | ha'
      · rw [hfresh] at hb
        exact absurd hb (by simp)
      · have hfresh' :
            (applyUpsertOne now s b).1.any
              (fun r => r.articleId = a.articleId) = false := by
          rw [hupd]
          rw [any_key_updateFirst]
          exact hfresh
        have := ih (applyUpsertOne now s b).1 ⟨a, ha', hfresh'⟩
        omega
    · have hins : (applyUpsertOne now s b).2 = true := by
        rw [applyUpsertOne, if_neg hb]
      rw [hins]
      simp

theorem saveArticlesToDB_of_ne_nil (now : Int) (articles : List NormArticle)
    (store : Store) (h : articles ≠ []) :
    saveArticlesToDB now articles store =
      ((bulkWriteUpserts now articles store).1,
        ⟨(bulkWriteUpserts now articles store).2.upsertedCount,
         (bulkWriteUpserts now articles store).2.modifiedCount⟩) := by
  rw [saveArticlesToDB, if_neg (by simpa [List.isEmpty_iff] using h)]

/-- C6 (amended): in a slot where every Provider A parameter-set fetch
fails but Provider B succeeds on at least one parameter set with at least
one article, the execution still commits every one of Provider B's
normalized records (their `articleId`s are present in the resulting
store), is counted as a successful — not failed — fetch, and
`stats.articlesSaved` strictly increases *provided at least one of
Provider B's records was not already stored* (`articlesSaved` counts only
upserted inserts, so a run whose records all collide with existing ones
contributes 0). Individual parameter-set failures never abort the rest:
each failed fetch merely contributes an empty list. -/
theorem slot_failure_containment (env : FetchEnv) (now : Int)
    (scheduleName : String) (store : Store) (st : SchedulerState)
    (schedule : Schedule)
    (hlook : fetchScheduleLookup scheduleName = some schedule)
    (hA : ∀ c ∈ schedule.newsDataConfig, ∃ e, env.newsDataHttp c = Except.error e)
    (hB : ∃ c ∈ schedule.newsApiConfig, ∃ body,
        env.newsApiOrgHttp c = Except.ok body ∧ body.articles ≠ [])
    (hok : env.bulkWriteOk = true) :
    (∀ b ∈ (schedule.newsApiConfig.map (fetchFromNewsApiOrg env)).flatten,
      (executeScheduledFetch env now scheduleName store st).1.any
        (fun r => r.articleId = b.articleId) = true) ∧
    ((executeScheduledFetch env now scheduleName store st).2.fetchStats.successfulFetches =
      st.fetchStats.successfulFetches + 1) ∧
    ((executeScheduledFetch env now scheduleName store st).2.fetchStats.failedFetches =
      st.fetchStats.failedFetches) ∧
    ((∃ b ∈ (schedule.newsApiConfig.map (fetchFromNewsApiOrg env)).flatten,
        store.any (fun r => r.articleId = b.articleId) = false) →
      st.fetchStats.articlesSaved <
        (executeScheduledFetch env now scheduleName store st).2.fetchStats.articlesSaved) := by
  have hAnil : (schedule.newsDataConfig.map (fetchFromNewsData env)).flatten = [] := by
    rw [List.flatten_eq_nil_iff]
    intro l hl
    obtain ⟨c, _, rfl⟩ := List.mem_map.mp hl
    exact fetchFromNewsData_eq_nil env c
  have hslot : slotAllArticles env schedule =
      (schedule.newsApiConfig.map (fetchFromNewsApiOrg env)).flatten := by
    rw [slotAllArticles, hAnil, List.nil_append]
  have hBne : (schedule.newsApiConfig.map (fetchFromNewsApiOrg env)).flatten ≠ [] := by
    obtain ⟨c, hc, body, hbody, hart⟩ := hB
    intro hnil
    rw [List.flatten_eq_nil_iff] at hnil
    have hz : fetchFromNewsApiOrg env c = [] :=
      hnil _ (List.mem_map_of_mem _ hc)
    rw [fetchFromNewsApiOrg, NewsApiOrgService.getTopHeadlines, hbody] at hz
    exact hart (List.map_eq_nil_iff.mp hz)
  have hne : slotAllArticles env schedule ≠ [] := by
    rw [hslot]
    exact hBne
  have hexec := executeScheduledFetch_valid_nonempty_ok env now scheduleName
    store st schedule hlook hne hok
  have hsave := saveArticlesToDB_of_ne_nil now (slotAllArticles env schedule)
    store hne
  refine ⟨?_, ?_, ?_, ?_⟩
  · intro b hb
    rw [hexec]
    simp only [hsave]
    rw [hslot]
    exact any_key_of_mem_bulkWriteUpserts now _ store b hb
  · rw [hexec]
  · rw [hexec]
  · intro hex
    rw [hexec]
    simp only [hsave]
    have hpos : 1 ≤ (bulkWriteUpserts now (slotAllArticles env schedule) store).2.upsertedCount := by
      apply upsertedCount_pos_of_fresh
      rw [hslot]
      exact hex
    omega

/-- Environment for the containment scenario: Provider A always fails;
Provider B succeeds with one article on "MORNING"'s first parameter set
and returns empty success bodies elsewhere. -/
def envBDominates : FetchEnv :=
  { newsDataHttp := fun _ => .error "provider down"
    newsApiOrgHttp := fun c =>
      if c = ⟨some "in", some "business", some 100⟩ then
        .ok ⟨"ok", 1, [sampleNARaw]⟩
      else .ok ⟨"ok", 0, []⟩
    bulkWriteOk := true }

/-- Witness for C6's amended statement at a concrete run against an empty
store: the slot commits, is counted successful, and `articlesSaved`
strictly increases. -/
theorem slot_failure_containment_witness :
    ((executeScheduledFetch envBDominates 8 "MORNING" [] initSchedulerState).2.fetchStats.successfulFetches =
      initSchedulerState.fetchStats.successfulFetches + 1) ∧
    ((executeScheduledFetch envBDominates 8 "MORNING" [] initSchedulerState).2.fetchStats.failedFetches =
      initSchedulerState.fetchStats.failedFetches) ∧
    (initSchedulerState.fetchStats.articlesSaved <
      (executeScheduledFetch envBDominates 8 "MORNING" [] initSchedulerState).2.fetchStats.articlesSaved) :=
  ⟨(slot_failure_containment envBDominates 8 "MORNING" [] initSchedulerState
      FETCH_SCHEDULE_MORNING rfl (fun _ _ => ⟨"provider down", rfl⟩)
      ⟨⟨some "in", some "business", some 100⟩, by decide,
        ⟨"ok", 1, [sampleNARaw]⟩, rfl, by decide⟩ rfl).2.1,
   (slot_failure_containment envBDominates 8 "MORNING" [] initSchedulerState
      FETCH_SCHEDULE_MORNING rfl (fun _ _ => ⟨"provider down", rfl⟩)
      ⟨⟨some "in", some "business", some 100⟩, by decide,
        ⟨"ok", 1, [sampleNARaw]⟩, rfl, by decide⟩ rfl).2.2.1,
   (slot_failure_containment envBDominates 8 "MORNING" [] initSchedulerState
      FETCH_SCHEDULE_MORNING rfl (fun _ _ => ⟨"provider down", rfl⟩)
      ⟨⟨some "in", some "business", some 100⟩, by decide,
        ⟨"ok", 1, [sampleNARaw]⟩, rfl, by decide⟩ rfl).2.2.2
      ⟨normalizeNewsApiOrgArticle sampleNARaw ["business"] ["in"],
        by decide, rfl⟩⟩

/-- Counterexample to C6 as stated: the same Provider-B-only "MORNING"
run against a store that *already* holds Provider B's record is still
successful and still commits (updates) the record, but
`stats.articlesSaved` increases by 0, refuting "contributes
articlesSaved > 0". -/
theorem slot_failure_containment_counterexample :
    ((FETCH_SCHEDULE_MORNING.newsDataConfig.all (fun c =>
        match envBDominates.newsDataHttp c with
        | .error _ => true
        | .ok _ => false)) = true) ∧
    ((match envBDominates.newsApiOrgHttp ⟨some "in", some "business", some 100⟩ with
      | .ok body => body.articles.length
      | .error _ => 0) = 1) ∧
    ((executeScheduledFetch envBDominates 60 "MORNING"
        (saveArticlesToDB 50
          [normalizeNewsApiOrgArticle sampleNARaw ["business"] ["in"]] []).1
        initSchedulerState).2.fetchStats.successfulFetches = 1) ∧
    ((executeScheduledFetch envBDominates 60 "MORNING"
        (saveArticlesToDB 50
          [normalizeNewsApiOrgArticle sampleNARaw ["business"] ["in"]] []).1
        initSchedulerState).2.fetchStats.articlesSaved = 0) := by
  refine ⟨rfl, rfl, rfl, rfl⟩

/-- C10 (amended): only a *missing/empty* `schedule` in the body is
rejected (400). A present-but-unknown slot name is acknowledged with a
202 "triggered" success response — it is not rejected and no error
reaches the caller — while the dispatched `executeScheduledFetch` merely
logs "Invalid schedule name" and returns without executing any fetch
(store, stats and last-fetch times all unchanged). -/
theorem manual_trigger_unknown_slot (env : FetchEnv) (now : Int)
    (store : Store) (st : SchedulerState) (name : String)
    (hlook : fetchScheduleLookup name = none) (hne : name ≠ "") :
    triggerManualFetchController env now (some name) store st =
      (.successResp 202 name, store, st) ∧
    triggerManualFetchController env now none store st =
      (.errorResp 400
        "Schedule name is required (MORNING, AFTERNOON, EVENING, NIGHT, EARLY_MORNING)",
       store, st) := by
  constructor
  · rw [triggerManualFetchController]
    rw [if_neg (by simp [jsFalsyStr, hne])]
    simp only [Option.getD_some]
    rw [executeScheduledFetch_invalid env now name store st hlook]
  · rfl

/-- Witness for C10's amended statement at the concrete unknown name
"BOGUS". -/
theorem manual_trigger_unknown_slot_witness :
    triggerManualFetchController envAllDown 3 (some "BOGUS") [] initSchedulerState =
      (.successResp 202 "BOGUS", [], initSchedulerState) ∧
    triggerManualFetchController envAllDown 3 none [] initSchedulerState =
      (.errorResp 400
        "Schedule name is required (MORNING, AFTERNOON, EVENING, NIGHT, EARLY_MORNING)",
       [], initSchedulerState) :=
  manual_trigger_unknown_slot envAllDown 3 [] initSchedulerState "BOGUS"
    rfl (by decide)

/-- Counterexample to C10 as stated: a manual trigger with the unknown
slot name "BOGUS" receives a 202 *success* acknowledgment — not a
rejection — and the scheduler state shows no trace of an error (no
failed-fetch count): the configuration error is silently ignored from the
caller's perspective. -/
theorem manual_trigger_unknown_slot_counterexample :
    (triggerManualFetchController envAllDown 3 (some "BOGUS") []
        initSchedulerState).1 = .successResp 202 "BOGUS" ∧
    (triggerManualFetchController envAllDown 3 (some "BOGUS") []
        initSchedulerState).2.2.fetchStats = ⟨0, 0, 0, 0⟩ := by
  constructor <;> rfl

/-- C2: no Read Service operation's effect trace contains a call to
either upstream client — latest news, search, trending, by-category,
sources and stats are all answered from the Article Store alone (each
result is, by construction, a function of the store state and the
operation's own arguments). -/
theorem read_service_no_upstream_calls :
    (∀ (store : Store) (filters : DbFilters) (limit page : Nat),
      (getNewsFromDB store filters limit page).1.all
        (fun e => !(e = Eff.upstreamNewsData || e = Eff.upstreamNewsApiOrg)) = true) ∧
    (∀ (store : Store) (filters : DbFilters),
      (getLatestNews store filters).1.all
        (fun e => !(e = Eff.upstreamNewsData || e = Eff.upstreamNewsApiOrg)) = true) ∧
    (∀ (renv : ReadEnv) (store : Store) (q : String),
      (searchNews renv store q).1.all
        (fun e => !(e = Eff.upstreamNewsData || e = Eff.upstreamNewsApiOrg)) = true) ∧
    (∀ (store : Store) (limit : Nat),
      (getTrendingNews store limit).1.all
        (fun e => !(e = Eff.upstreamNewsData || e = Eff.upstreamNewsApiOrg)) = true) ∧
    (∀ (store : Store) (category : String) (filters : DbFilters),
      (getNewsByCategory store category filters).1.all
        (fun e => !(e = Eff.upstreamNewsData || e = Eff.upstreamNewsApiOrg)) = true) ∧
    (∀ (store : Store) (filters : DbFilters),
      (getSources store filters).1.all
        (fun e => !(e = Eff.upstreamNewsData || e = Eff.upstreamNewsApiOrg)) = true) ∧
    (∀ (store : Store) (now : Int),
      (getStats store now).1.all
        (fun e => !(e = Eff.upstreamNewsData || e = Eff.upstreamNewsApiOrg)) = true) := by
  refine ⟨?_, ?_, ?_, ?_, ?_, ?_, ?_⟩
  · intro store filters limit page
    rfl
  · intro store filters
    rfl
  · intro renv store q
    rfl
  · intro store limit
    rfl
  · intro store category filters
    rfl
  · intro store filters
    rfl
  · intro store now
    rfl

theorem sorted_pubDesc_drop_take (l : List StoredRecord) (s n : Nat)
    (h : List.Sorted pubDescRel l) :
    List.Sorted pubDescRel ((l.drop s).take n) :=
  List.Pairwise.sublist
    ((List.take_sublist n (l.drop s)).trans (List.drop_sublist s l)) h

/-- C8 (amended): every latest-news read is ordered newest-first on
`publishedAt` — both the Read Service's `getNewsFromDB` path and the
store helper `findRecent` sort `{publishedAt: -1}` — and `findRecent`
additionally excludes soft-deleted (and duplicate-flagged) records; the
`getNewsFromDB` query, however, carries no `isDeleted` condition, so the
soft-delete exclusion holds only on the `findRecent` path. -/
theorem latest_news_ordering_and_soft_delete :
    (∀ (store : Store) (filters : DbFilters) (limit page : Nat),
      List.Sorted pubDescRel (getNewsFromDB store filters limit page).2.articles) ∧
    (∀ (store : Store) (now hours : Int) (limit skip : Nat),
      List.Sorted pubDescRel (findRecent store now hours limit skip) ∧
      ∀ r ∈ findRecent store now hours limit skip,
        r.isDeleted = false ∧ r.duplicate = false) := by
  constructor
  · intro store filters limit page
    exact sorted_pubDesc_drop_take _ _ _
      (List.sorted_insertionSort pubDescRel _)
  · intro store now hours limit skip
    constructor
    · exact sorted_pubDesc_drop_take _ _ _
        (List.sorted_insertionSort pubDescRel _)
    · intro r hr
      simp only [findRecent] at hr
      have hr1 := ((List.take_sublist limit _).trans
        (List.drop_sublist skip _)).mem hr
      have hr2 := (List.perm_insertionSort pubDescRel _).mem_iff.mp hr1
      have := (List.mem_filter.mp hr2).2
      simp only [Bool.and_eq_true, Bool.not_eq_eq_eq_not, Bool.not_true] at this
      exact ⟨this.1.2, this.2⟩

/-- A soft-deleted stored record (as left by an external
`softDelete()`). -/
def softDeletedRec : StoredRecord :=
  { insertRecord 0 (normalizeNewsDataArticle sampleNDRaw) with
    isDeleted := true }

/-- A live stored record for concrete read evaluations. -/
def liveRec : StoredRecord :=
  insertRecord 5 (normalizeNewsDataArticle sampleNDRaw)

/-- Witness for C8's amended statement at concrete stores. -/
theorem latest_news_ordering_witness :
    List.Sorted pubDescRel
      (getNewsFromDB [softDeletedRec, liveRec] ⟨none, none, none⟩ 50 1).2.articles ∧
    (liveRec.isDeleted = false ∧ liveRec.duplicate = false) :=
  ⟨latest_news_ordering_and_soft_delete.1 [softDeletedRec, liveRec]
      ⟨none, none, none⟩ 50 1,
   (latest_news_ordering_and_soft_delete.2 [liveRec] 1700000000000 24 20 0).2
      liveRec (by decide)⟩

/-- Counterexample to C8 as stated: a store whose only matching record is
soft-deleted — the Read Service's latest-news path (`getNewsFromDB`,
behind `getLatestNews`) returns it anyway, because its query has no
`isDeleted: false` condition. -/
theorem latest_news_soft_delete_counterexample :
    softDeletedRec.isDeleted = true ∧
    (getNewsFromDB [softDeletedRec] ⟨none, none, none⟩ 50 1).2.articles =
      [softDeletedRec] := by
  constructor <;> rfl
